import Mathlib

/-!
Shallow embedding of the zingoStats order-analytics dashboard (src/main.py).

The program issues three SQL aggregation queries over a table of orders
joined with stores and delivery men, post-processes the resulting data
frames by rounding monetary columns to two decimal places, and offers the
results for download as single-sheet spreadsheets.

We model SQL `DATE(created_at)` values as natural-number day indices,
monetary amounts as rationals, and a data frame as a Lean structure (one
structure type per query, fields in the column order of the SELECT list).
-/

/-- A row of the external `orders` table.  `created_at` is the creation date of the order (`DATE(created_at)` in the SQL), modelled as a day index. -/
structure Order where
  id : Nat
  order_amount : ℚ
  delivery_charge : ℚ
  additional_charge : ℚ
  order_status : String
  created_at : Nat
  store_id : Nat
  delivery_man_id : Nat
  deriving Repr, DecidableEq

/-- A row of the external `stores` table. -/
structure Store where
  id : Nat
  name : String
  deriving Repr, DecidableEq

/-- A row of the external `delivery_men` table. -/
structure DeliveryMan where
  id : Nat
  l_name : String
  deriving Repr, DecidableEq

/-- Rounding a rational to two decimal places: the model of pandas
`Series.round(2)` applied to a monetary column cell. -/
def round2 (q : ℚ) : ℚ := (round (q * 100) : ℤ) / 100

/-- The date condition appended to the WHERE clause of each query, as built by the
`if start_date and end_date / elif start_date / else` chain shared by
`get_restaurant_stats`, `get_delivery_stats` and `get_final_stats`
(src/main.py lines 36-39, 68-71, 100-103):
both dates present gives `DATE(created_at) BETWEEN start AND end`,
only a start date gives `DATE(created_at) = start`,
otherwise no date condition (always true). -/
def dateFilter (start_date end_date : Option Nat) (d : Nat) : Bool :=
  match start_date, end_date with
  | some s, some e => decide (s ≤ d) && decide (d ≤ e)
  | some s, none => decide (d = s)
  | none, _ => true

/-- The orders satisfying the common WHERE clause
`order_status` equals `delivered` combined with the date condition. -/
def matchingOrders (orders : List Order) (start_date end_date : Option Nat) :
    List Order :=
  orders.filter fun o =>
    o.order_status == "delivered" && dateFilter start_date end_date o.created_at

/-- The single row produced by the aggregate query of `get_final_stats`
(src/main.py lines 89-98), fields in SELECT-list order. -/
structure FinalRow where
  total_orders : Nat
  total_order_amount : ℚ
  total_restaurant_revenue : ℚ
  total_delivery_charge : ℚ
  total_additional_charge : ℚ
  deriving Repr, DecidableEq

/-- The aggregate row of `get_final_stats` before the rounding post-pass:
`COUNT(id)` and the four `COALESCE(SUM(...), 0)` columns.  A sum over an
empty list is 0 in ℚ, which is exactly what `COALESCE(SUM(...), 0)`
yields on an empty group. -/
def finalAggRow (os : List Order) : FinalRow :=
  { total_orders := os.length
    total_order_amount := (os.map (·.order_amount)).sum
    total_restaurant_revenue :=
      (os.map (fun o => o.order_amount - o.delivery_charge - o.additional_charge)).sum
    total_delivery_charge := (os.map (·.delivery_charge)).sum
    total_additional_charge := (os.map (·.additional_charge)).sum }

/-- The rounding post-pass of `get_final_stats` (src/main.py lines 107-112):
the four monetary columns are rounded to 2 decimals, `total_orders` is
left untouched. -/
def roundFinalRow (r : FinalRow) : FinalRow :=
  { r with
    total_order_amount := round2 r.total_order_amount
    total_restaurant_revenue := round2 r.total_restaurant_revenue
    total_delivery_charge := round2 r.total_delivery_charge
    total_additional_charge := round2 r.total_additional_charge }

/-- `get_final_stats` (src/main.py lines 87-115): the aggregate query with no
GROUP BY always yields exactly one row; the data frame is therefore never
empty and the rounding pass always runs. -/
def get_final_stats (orders : List Order) (start_date end_date : Option Nat) :
    List FinalRow :=
  [finalAggRow (matchingOrders orders start_date end_date)].map roundFinalRow

/-- Insert `x` into `l` before the first element `y` with `le x y`; the
building block of the model of SQL `ORDER BY`. -/
def insertBy (le : α → α → Bool) (x : α) : List α → List α
  | [] => [x]
  | y :: ys => if le x y then x :: y :: ys else y :: insertBy le x ys

/-- Insertion sort by the comparison `le`; models SQL `ORDER BY` (in a
structurally recursive form so that results compute by `decide`). -/
def sortBy (le : α → α → Bool) : List α → List α
  | [] => []
  | x :: xs => insertBy le x (sortBy le xs)

/-- A row of the `get_restaurant_stats` result (src/main.py lines 23-34),
fields in SELECT-list order. -/
structure RestaurantRow where
  restaurant_name : String
  total_orders : Nat
  total_order_amount : ℚ
  total_delivery_fee : ℚ
  total_additional_charge : ℚ
  total_revenue : ℚ
  deriving Repr, DecidableEq

/-- The `JOIN stores s ON o.store_id = s.id` of `get_restaurant_stats`,
restricted to the orders passing the WHERE clause. -/
def restaurantJoin (orders : List Order) (stores : List Store)
    (start_date end_date : Option Nat) : List (Order × Store) :=
  (matchingOrders orders start_date end_date).flatMap fun o =>
    (stores.filter fun s => o.store_id == s.id).map fun s => (o, s)

/-- One group row of `get_restaurant_stats` for the `GROUP BY s.id, s.name`
key `k`, before rounding: `COUNT(o.id)`, the three sums, and
`SUM(o.order_amount - o.delivery_charge - o.additional_charge)` as
`total_revenue`. -/
def restaurantGroupRow (joined : List (Order × Store)) (k : Nat × String) :
    RestaurantRow :=
  let g := joined.filter fun p => p.2.id == k.1 && p.2.name == k.2
  { restaurant_name := k.2
    total_orders := g.length
    total_order_amount := (g.map (fun p => p.1.order_amount)).sum
    total_delivery_fee := (g.map (fun p => p.1.delivery_charge)).sum
    total_additional_charge := (g.map (fun p => p.1.additional_charge)).sum
    total_revenue :=
      (g.map (fun p =>
        p.1.order_amount - p.1.delivery_charge - p.1.additional_charge)).sum }

/-- The data frame returned by `pd.read_sql` in `get_restaurant_stats`:
one row per distinct `GROUP BY s.id, s.name` key, `ORDER BY total_revenue
DESC`. -/
def restaurantQueryRows (orders : List Order) (stores : List Store)
    (start_date end_date : Option Nat) : List RestaurantRow :=
  sortBy (fun a b => decide (b.total_revenue ≤ a.total_revenue))
    ((((restaurantJoin orders stores start_date end_date).map
        fun p => (p.2.id, p.2.name)).dedup).map
      (restaurantGroupRow (restaurantJoin orders stores start_date end_date)))

/-- The rounding post-pass of `get_restaurant_stats`
(src/main.py lines 45-49): the four monetary columns are rounded,
`restaurant_name` and `total_orders` are left untouched. -/
def roundRestaurantRow (r : RestaurantRow) : RestaurantRow :=
  { r with
    total_order_amount := round2 r.total_order_amount
    total_delivery_fee := round2 r.total_delivery_fee
    total_additional_charge := round2 r.total_additional_charge
    total_revenue := round2 r.total_revenue }

/-- `get_restaurant_stats` (src/main.py lines 21-52).  The source rounds only
when the data frame is non-empty; mapping the rounding over the rows is the
same function, since mapping over an empty frame changes nothing. -/
def get_restaurant_stats (orders : List Order) (stores : List Store)
    (start_date end_date : Option Nat) : List RestaurantRow :=
  (restaurantQueryRows orders stores start_date end_date).map roundRestaurantRow

/-- A row of the `get_delivery_stats` result (src/main.py lines 57-66),
fields in SELECT-list order. -/
structure DeliveryRow where
  delivery_man_name : String
  total_deliveries : Nat
  total_order_amount : ℚ
  total_delivery_fee : ℚ
  deriving Repr, DecidableEq

/-- The `JOIN delivery_men dm ON o.delivery_man_id = dm.id` of
`get_delivery_stats`, restricted to the orders passing the WHERE clause. -/
def deliveryJoin (orders : List Order) (dms : List DeliveryMan)
    (start_date end_date : Option Nat) : List (Order × DeliveryMan) :=
  (matchingOrders orders start_date end_date).flatMap fun o =>
    (dms.filter fun dm => o.delivery_man_id == dm.id).map fun dm => (o, dm)

/-- One group row of `get_delivery_stats` for the `GROUP BY dm.id, dm.l_name`
key `k`, before rounding. -/
def deliveryGroupRow (joined : List (Order × DeliveryMan)) (k : Nat × String) :
    DeliveryRow :=
  let g := joined.filter fun p => p.2.id == k.1 && p.2.l_name == k.2
  { delivery_man_name := k.2
    total_deliveries := g.length
    total_order_amount := (g.map (fun p => p.1.order_amount)).sum
    total_delivery_fee := (g.map (fun p => p.1.delivery_charge)).sum }

/-- The data frame returned by `pd.read_sql` in `get_delivery_stats`:
one row per distinct `GROUP BY dm.id, dm.l_name` key, `ORDER BY
total_order_amount DESC`. -/
def deliveryQueryRows (orders : List Order) (dms : List DeliveryMan)
    (start_date end_date : Option Nat) : List DeliveryRow :=
  sortBy (fun a b => decide (b.total_order_amount ≤ a.total_order_amount))
    ((((deliveryJoin orders dms start_date end_date).map
        fun p => (p.2.id, p.2.l_name)).dedup).map
      (deliveryGroupRow (deliveryJoin orders dms start_date end_date)))

/-- The rounding post-pass of `get_delivery_stats`
(src/main.py lines 77-81). -/
def roundDeliveryRow (r : DeliveryRow) : DeliveryRow :=
  { r with
    total_order_amount := round2 r.total_order_amount
    total_delivery_fee := round2 r.total_delivery_fee }

/-- `get_delivery_stats` (src/main.py lines 55-84). -/
def get_delivery_stats (orders : List Order) (dms : List DeliveryMan)
    (start_date end_date : Option Nat) : List DeliveryRow :=
  (deliveryQueryRows orders dms start_date end_date).map roundDeliveryRow

/-- Exception-aware model of the resource flow of `get_restaurant_stats`
(src/main.py lines 21-52): `conn = get_db_connection()` opens the
connection, `pd.read_sql` either returns a data frame or raises, and the
straight-line `conn.close()` runs only after a successful read — the
function body has no try/finally or context manager.  The result pairs the
outcome of the call with whether the connection was closed when control left
the function. -/
def restaurantStatsResource (readSql : Except String (List RestaurantRow)) :
    Except String (List RestaurantRow) × Bool :=
  match readSql with
  | .error e => (.error e, false)
  | .ok df => (.ok (df.map roundRestaurantRow), true)

/-- Exception-aware model of the resource flow of `get_delivery_stats`
(src/main.py lines 55-84), identical in shape to `restaurantStatsResource`. -/
def deliveryStatsResource (readSql : Except String (List DeliveryRow)) :
    Except String (List DeliveryRow) × Bool :=
  match readSql with
  | .error e => (.error e, false)
  | .ok df => (.ok (df.map roundDeliveryRow), true)

/-- A spreadsheet cell: numeric or text. -/
inductive Cell where
  | num (q : ℚ)
  | str (s : String)
  deriving Repr, DecidableEq

/-- A tabular aggregation result as handed to the export encoder: ordered
column names and rows of cells. -/
structure DataFrame where
  columns : List String
  rows : List (List Cell)
  deriving Repr, DecidableEq

/-- One sheet of a workbook: a header row followed by data rows. -/
structure Sheet where
  header : List String
  data : List (List Cell)
  deriving Repr, DecidableEq

/-- A spreadsheet workbook (the observable content of the produced byte
buffer, ignoring container metadata). -/
structure Workbook where
  sheets : List Sheet
  deriving Repr, DecidableEq

/-- Modelled from the spec: the byte-level xlsx serialization performed by
`df.to_excel(writer, index=False)` inside `export_to_excel`
(src/main.py lines 118-122) lives in pandas/xlsxwriter, outside this
repository.  Per the Export Encoder contract in the spec, the observable
content is a workbook with a single sheet whose header row is the column
names in the order given and with one data row per result row, no index
column, no styling. -/
def export_to_excel (df : DataFrame) : Workbook :=
  { sheets := [{ header := df.columns, data := df.rows }] }

/-- Modelled from the spec: re-reading a produced spreadsheet — decode a
single-sheet workbook back into a tabular result (header row becomes the
column names, remaining rows the data). -/
def readWorkbook (wb : Workbook) : Option DataFrame :=
  match wb.sheets with
  | [s] => some { columns := s.header, rows := s.data }
  | _ => none

/-- Python `str()` of the `end_date` variable as interpolated into the
download file name f-string (src/main.py lines 174, 190, 206): the ISO string of
the date when a date is present, the literal `None` when the Today branch
left `end_date = None`. -/
def pyStrEndDate : Option String → String
  | some d => d
  | none => "None"

/-- The download file name built in `main`
(src/main.py lines 174, 190, 206):
`f"<report>_{start_date}_to_{end_date}.xlsx"`, with dates modelled by
their ISO strings. -/
def exportFileName (report start : String) (endD : Option String) : String :=
  report ++ "_" ++ start ++ "_to_" ++ pyStrEndDate endD ++ ".xlsx"

/-- The MIME type passed to every `st.download_button`
(src/main.py lines 175, 191, 207). -/
def exportMime : String :=
  "application/vnd.openxmlformats-officedocument.spreadsheetml.sheet"

/-- The file-name property as the spec states it: the name follows
`<report-name>_<start-date>_to_<end-date>.<ext>` where the end date is the
end boundary of the selected range — i.e. some end date was selected and the
name interpolates it. -/
def specFileNamePattern (report start : String) (endD : Option String)
    (fname : String) : Prop :=
  ∃ e, endD = some e ∧ fname = report ++ "_" ++ start ++ "_to_" ++ e ++ ".xlsx"

/-- A rational that is a whole number of hundredths (a cent amount). -/
def IsCentMul (q : ℚ) : Prop := ∃ n : ℤ, q = (n : ℚ) / 100

/-! ### Lemmas about two-decimal rounding -/

theorem round2_zero : round2 0 = 0 := by
  simp [round2]

theorem round2_intDiv (n : ℤ) : round2 ((n : ℚ) / 100) = (n : ℚ) / 100 := by
  have h : ((n : ℚ) / 100) * 100 = (n : ℚ) := by
    field_simp
  rw [round2, h, round_intCast]

theorem round2_centMul {q : ℚ} (h : IsCentMul q) : round2 q = q := by
  obtain ⟨n, rfl⟩ := h
  exact round2_intDiv n

theorem round2_idem (q : ℚ) : round2 (round2 q) = round2 q :=
  round2_centMul ⟨round (q * 100), rfl⟩

theorem round2_mono {q r : ℚ} (h : q ≤ r) : round2 q ≤ round2 r := by
  rw [round2, round2]
  apply div_le_div_of_nonneg_right _ (by norm_num : (0 : ℚ) ≤ 100)
  rw [Int.cast_le, round_eq, round_eq]
  apply Int.floor_le_floor
  have : q * 100 ≤ r * 100 := by nlinarith
  linarith

theorem IsCentMul.sub {a b : ℚ} (ha : IsCentMul a) (hb : IsCentMul b) :
    IsCentMul (a - b) := by
  obtain ⟨m, rfl⟩ := ha
  obtain ⟨n, rfl⟩ := hb
  exact ⟨m - n, by rw [Int.cast_sub]; ring⟩

theorem centMul_sum {α : Type} (l : List α) (f : α → ℚ)
    (h : ∀ x ∈ l, IsCentMul (f x)) : IsCentMul ((l.map f).sum) := by
  induction l with
  | nil => exact ⟨0, by simp⟩
  | cons x xs ih =>
    obtain ⟨m, hm⟩ := h x (List.mem_cons_self x xs)
    obtain ⟨n, hn⟩ := ih fun y hy => h y (List.mem_cons_of_mem x hy)
    exact ⟨m + n, by simp [hm, hn]; ring⟩

theorem sum_map_sub3 {α : Type} (l : List α) (f g h : α → ℚ) :
    (l.map fun x => f x - g x - h x).sum
      = (l.map f).sum - (l.map g).sum - (l.map h).sum := by
  induction l with
  | nil => simp
  | cons x xs ih => simp [ih]; ring

/-! ### Lemmas about the ORDER BY model -/

theorem mem_insertBy {α : Type} (le : α → α → Bool) (x a : α) (l : List α) :
    a ∈ insertBy le x l ↔ a = x ∨ a ∈ l := by
  induction l with
  | nil => simp [insertBy]
  | cons y ys ih =>
    by_cases h : le x y
    · simp [insertBy, h]
    · simp [insertBy, h, ih]
      tauto

theorem mem_sortBy {α : Type} (le : α → α → Bool) (a : α) (l : List α) :
    a ∈ sortBy le l ↔ a ∈ l := by
  induction l with
  | nil => simp [sortBy]
  | cons x xs ih => simp [sortBy, mem_insertBy, ih]

theorem pairwise_insertBy {α : Type} (le : α → α → Bool)
    (htot : ∀ a b, le a b = true ∨ le b a = true)
    (htrans : ∀ a b c, le a b = true → le b c = true → le a c = true)
    (x : α) (l : List α) (hl : l.Pairwise fun a b => le a b = true) :
    (insertBy le x l).Pairwise fun a b => le a b = true := by
  induction l with
  | nil => simp [insertBy]
  | cons y ys ih =>
    rcases List.pairwise_cons.mp hl with ⟨hy, hys⟩
    by_cases h : le x y
    · simp only [insertBy, if_pos h]
      refine List.pairwise_cons.mpr ⟨?_, hl⟩
      intro z hz
      rcases List.mem_cons.mp hz with rfl | hz
      · exact h
      · exact htrans x y z h (hy z hz)
    · simp only [insertBy, if_neg h]
      refine List.pairwise_cons.mpr ⟨?_, ih hys⟩
      intro z hz
      rcases (mem_insertBy le x z ys).mp hz with hzx | hz
      · rw [hzx]
        rcases htot x y with h1 | h1
        · exact absurd h1 h
        · exact h1
      · exact hy z hz

theorem pairwise_sortBy {α : Type} (le : α → α → Bool)
    (htot : ∀ a b, le a b = true ∨ le b a = true)
    (htrans : ∀ a b c, le a b = true → le b c = true → le a c = true)
    (l : List α) : (sortBy le l).Pairwise fun a b => le a b = true := by
  induction l with
  | nil => simp [sortBy]
  | cons x xs ih => exact pairwise_insertBy le htot htrans x _ ih

/-! ### Lemmas about the WHERE clause -/

theorem matchingOrders_filter_delivered (orders : List Order)
    (sd ed : Option Nat) :
    matchingOrders (orders.filter fun o => o.order_status == "delivered") sd ed
      = matchingOrders orders sd ed := by
  simp only [matchingOrders, List.filter_filter]
  apply List.filter_congr
  intro o _
  cases h : (o.order_status == "delivered") <;> simp [h]

theorem matchingOrders_filter_date (orders : List Order) (sd ed : Option Nat) :
    matchingOrders (orders.filter fun o => dateFilter sd ed o.created_at) sd ed
      = matchingOrders orders sd ed := by
  simp only [matchingOrders, List.filter_filter]
  apply List.filter_congr
  intro o _
  cases h : dateFilter sd ed o.created_at <;> simp [h]

/-! ### Claim theorems -/

/-- C1: for every aggregation query (overall, per-restaurant, per-courier):
if the date range carries both a start and an end date, the query filters
orders to those whose creation date is inclusive-between start and end; if
it carries only a start date, it filters to orders whose creation date
equals that single date; if the date range is empty, no date filter is
applied and the aggregation covers all time.  The last conjunct records
that each of the three query results is computed from exactly the orders
passing the date filter. -/
theorem date_filter_policy :
    (∀ (orders : List Order) (s e : Nat),
      matchingOrders orders (some s) (some e)
        = orders.filter fun o => o.order_status == "delivered"
            && (decide (s ≤ o.created_at) && decide (o.created_at ≤ e)))
    ∧ (∀ (orders : List Order) (s : Nat),
      matchingOrders orders (some s) none
        = orders.filter fun o => o.order_status == "delivered"
            && decide (o.created_at = s))
    ∧ (∀ orders : List Order,
      matchingOrders orders none none
        = orders.filter fun o => o.order_status == "delivered")
    ∧ (∀ (orders : List Order) (stores : List Store) (dms : List DeliveryMan)
        (sd ed : Option Nat),
      get_restaurant_stats orders stores sd ed
        = get_restaurant_stats
            (orders.filter fun o => dateFilter sd ed o.created_at) stores sd ed
      ∧ get_delivery_stats orders dms sd ed
        = get_delivery_stats
            (orders.filter fun o => dateFilter sd ed o.created_at) dms sd ed
      ∧ get_final_stats orders sd ed
        = get_final_stats
            (orders.filter fun o => dateFilter sd ed o.created_at) sd ed) := by
  refine ⟨fun orders s e => rfl, fun orders s => rfl, fun orders => ?_, ?_⟩
  · simp [matchingOrders, dateFilter]
  · intro orders stores dms sd ed
    refine ⟨?_, ?_, ?_⟩
    · simp only [get_restaurant_stats, restaurantQueryRows, restaurantJoin,
        matchingOrders_filter_date]
    · simp only [get_delivery_stats, deliveryQueryRows, deliveryJoin,
        matchingOrders_filter_date]
    · simp only [get_final_stats, matchingOrders_filter_date]

/-- C10: when the date range carries an end date but no start date, no date
filter is applied at all: the end date is silently ignored and each of the
three aggregations equals the all-time aggregation. -/
theorem end_only_ignored (orders : List Order) (stores : List Store)
    (dms : List DeliveryMan) (e : Nat) :
    get_restaurant_stats orders stores none (some e)
        = get_restaurant_stats orders stores none none
    ∧ get_delivery_stats orders dms none (some e)
        = get_delivery_stats orders dms none none
    ∧ get_final_stats orders none (some e)
        = get_final_stats orders none none :=
  ⟨rfl, rfl, rfl⟩

/-- C6: only orders whose status equals `delivered` contribute to any of the
three aggregations (each result is unchanged when the input is restricted
to its delivered orders), and an input set holding one non-delivered order
and zero delivered orders yields an overall result with total_orders = 0
and all sums = 0. -/
theorem delivered_orders_only (orders : List Order) (stores : List Store)
    (dms : List DeliveryMan) (sd ed : Option Nat) :
    get_restaurant_stats (orders.filter fun o => o.order_status == "delivered")
        stores sd ed = get_restaurant_stats orders stores sd ed
    ∧ get_delivery_stats (orders.filter fun o => o.order_status == "delivered")
        dms sd ed = get_delivery_stats orders dms sd ed
    ∧ get_final_stats (orders.filter fun o => o.order_status == "delivered")
        sd ed = get_final_stats orders sd ed
    ∧ (∀ o : Order, o.order_status ≠ "delivered" →
        get_final_stats [o] sd ed
          = [{ total_orders := 0, total_order_amount := 0,
               total_restaurant_revenue := 0, total_delivery_charge := 0,
               total_additional_charge := 0 }]) := by
  refine ⟨?_, ?_, ?_, ?_⟩
  · simp only [get_restaurant_stats, restaurantQueryRows, restaurantJoin,
      matchingOrders_filter_delivered]
  · simp only [get_delivery_stats, deliveryQueryRows, deliveryJoin,
      matchingOrders_filter_delivered]
  · simp only [get_final_stats, matchingOrders_filter_delivered]
  · intro o ho
    have hst : (o.order_status == "delivered") = false := by
      simpa using ho
    have hm : matchingOrders [o] sd ed = [] := by
      simp [matchingOrders, hst]
    simp [get_final_stats, hm, finalAggRow, roundFinalRow, round2_zero]

/-- C6 witness: a concrete non-delivered order, alone in the input, yields
the all-zero overall row. -/
theorem delivered_orders_only_witness :
    (Order.mk 1 50 5 2 "canceled" 7 1 1).order_status ≠ "delivered"
    ∧ get_final_stats [Order.mk 1 50 5 2 "canceled" 7 1 1] none none
        = [{ total_orders := 0, total_order_amount := 0,
             total_restaurant_revenue := 0, total_delivery_charge := 0,
             total_additional_charge := 0 }] :=
  ⟨by decide, (delivered_orders_only [] [] [] none none).2.2.2
    (Order.mk 1 50 5 2 "canceled" 7 1 1) (by decide)⟩

/-- C2: for every date range whose filter matches no orders — including a
range whose start date is strictly after its end date — the overall
aggregation returns exactly one row with total_orders = 0 and all four sum
columns equal to 0, the per-restaurant and per-courier aggregations return
zero rows, and no error is raised (the functions are total). -/
theorem empty_filter_results :
    (∀ (orders : List Order) (stores : List Store) (dms : List DeliveryMan)
        (sd ed : Option Nat), matchingOrders orders sd ed = [] →
      get_final_stats orders sd ed
          = [{ total_orders := 0, total_order_amount := 0,
               total_restaurant_revenue := 0, total_delivery_charge := 0,
               total_additional_charge := 0 }]
      ∧ get_restaurant_stats orders stores sd ed = []
      ∧ get_delivery_stats orders dms sd ed = [])
    ∧ (∀ s e d : Nat, e < s → dateFilter (some s) (some e) d = false)
    ∧ (∀ (orders : List Order) (stores : List Store) (dms : List DeliveryMan)
        (s e : Nat), e < s →
      get_final_stats orders (some s) (some e)
          = [{ total_orders := 0, total_order_amount := 0,
               total_restaurant_revenue := 0, total_delivery_charge := 0,
               total_additional_charge := 0 }]
      ∧ get_restaurant_stats orders stores (some s) (some e) = []
      ∧ get_delivery_stats orders dms (some s) (some e) = []) := by
  have key : ∀ (orders : List Order) (stores : List Store)
      (dms : List DeliveryMan) (sd ed : Option Nat),
      matchingOrders orders sd ed = [] →
      get_final_stats orders sd ed
          = [{ total_orders := 0, total_order_amount := 0,
               total_restaurant_revenue := 0, total_delivery_charge := 0,
               total_additional_charge := 0 }]
      ∧ get_restaurant_stats orders stores sd ed = []
      ∧ get_delivery_stats orders dms sd ed = [] := by
    intro orders stores dms sd ed hm
    refine ⟨?_, ?_, ?_⟩
    · simp [get_final_stats, hm, finalAggRow, roundFinalRow, round2_zero]
    · simp [get_restaurant_stats, restaurantQueryRows, restaurantJoin, hm,
        sortBy]
    · simp [get_delivery_stats, deliveryQueryRows, deliveryJoin, hm, sortBy]
  have hdate : ∀ s e d : Nat, e < s → dateFilter (some s) (some e) d = false := by
    intro s e d h
    simp only [dateFilter, Bool.and_eq_false_iff, decide_eq_false_iff_not]
    omega
  refine ⟨key, hdate, ?_⟩
  intro orders stores dms s e h
  apply key
  apply List.filter_eq_nil_iff.mpr
  intro o _
  simp [hdate s e o.created_at h]

/-- C2 witness: the all-time query over no orders, and a reversed range
(start 5, end 2) over a concrete delivered order. -/
theorem empty_filter_results_witness :
    (matchingOrders [] none none = []
      ∧ get_final_stats [] none none
          = [{ total_orders := 0, total_order_amount := 0,
               total_restaurant_revenue := 0, total_delivery_charge := 0,
               total_additional_charge := 0 }]
      ∧ get_restaurant_stats [] [] none none = []
      ∧ get_delivery_stats [] [] none none = [])
    ∧ ((2 : Nat) < 5
      ∧ get_final_stats [Order.mk 1 50 5 2 "delivered" 3 1 1]
          (some 5) (some 2)
          = [{ total_orders := 0, total_order_amount := 0,
               total_restaurant_revenue := 0, total_delivery_charge := 0,
               total_additional_charge := 0 }]
      ∧ get_restaurant_stats [Order.mk 1 50 5 2 "delivered" 3 1 1]
          [Store.mk 1 "Cafe X"] (some 5) (some 2) = []
      ∧ get_delivery_stats [Order.mk 1 50 5 2 "delivered" 3 1 1]
          [DeliveryMan.mk 1 "Ravi"] (some 5) (some 2) = []) := by
  have h1 := empty_filter_results.1 [] [] [] none none rfl
  have h2 := empty_filter_results.2.2 [Order.mk 1 50 5 2 "delivered" 3 1 1]
    [Store.mk 1 "Cafe X"] [DeliveryMan.mk 1 "Ravi"] 5 2 (by decide)
  exact ⟨⟨rfl, h1⟩, ⟨by decide, h2⟩⟩

/-- C3: in every returned result, every monetary column cell is rounded to
exactly 2 decimal places (rounding it again changes nothing), and the
non-monetary columns (names and counts) are exactly those of the raw query
result, untouched by the rounding pass. -/
theorem monetary_columns_rounded (orders : List Order) (stores : List Store)
    (dms : List DeliveryMan) (sd ed : Option Nat) :
    ((get_restaurant_stats orders stores sd ed).Forall fun r =>
      round2 r.total_order_amount = r.total_order_amount
      ∧ round2 r.total_delivery_fee = r.total_delivery_fee
      ∧ round2 r.total_additional_charge = r.total_additional_charge
      ∧ round2 r.total_revenue = r.total_revenue)
    ∧ ((get_restaurant_stats orders stores sd ed).map fun r =>
        (r.restaurant_name, r.total_orders))
      = ((restaurantQueryRows orders stores sd ed).map fun r =>
        (r.restaurant_name, r.total_orders))
    ∧ ((get_delivery_stats orders dms sd ed).Forall fun r =>
      round2 r.total_order_amount = r.total_order_amount
      ∧ round2 r.total_delivery_fee = r.total_delivery_fee)
    ∧ ((get_delivery_stats orders dms sd ed).map fun r =>
        (r.delivery_man_name, r.total_deliveries))
      = ((deliveryQueryRows orders dms sd ed).map fun r =>
        (r.delivery_man_name, r.total_deliveries))
    ∧ ((get_final_stats orders sd ed).Forall fun r =>
      round2 r.total_order_amount = r.total_order_amount
      ∧ round2 r.total_restaurant_revenue = r.total_restaurant_revenue
      ∧ round2 r.total_delivery_charge = r.total_delivery_charge
      ∧ round2 r.total_additional_charge = r.total_additional_charge)
    ∧ ((get_final_stats orders sd ed).map fun r => r.total_orders)
      = [(finalAggRow (matchingOrders orders sd ed)).total_orders] := by
  refine ⟨?_, ?_, ?_, ?_, ?_, ?_⟩
  · rw [List.forall_iff_forall_mem]
    intro r hr
    simp only [get_restaurant_stats] at hr
    obtain ⟨x, -, rfl⟩ := List.mem_map.mp hr
    exact ⟨round2_idem _, round2_idem _, round2_idem _, round2_idem _⟩
  · simp only [get_restaurant_stats, List.map_map]
    rfl
  · rw [List.forall_iff_forall_mem]
    intro r hr
    simp only [get_delivery_stats] at hr
    obtain ⟨x, -, rfl⟩ := List.mem_map.mp hr
    exact ⟨round2_idem _, round2_idem _⟩
  · simp only [get_delivery_stats, List.map_map]
    rfl
  · rw [List.forall_iff_forall_mem]
    intro r hr
    simp only [get_final_stats] at hr
    obtain ⟨x, -, rfl⟩ := List.mem_map.mp hr
    exact ⟨round2_idem _, round2_idem _, round2_idem _, round2_idem _⟩
  · rfl

/-- C5: the rows of the per-restaurant result are non-increasing in
`total_revenue`, and the rows of the per-courier result are non-increasing
in `total_order_amount`. -/
theorem results_ordered_desc (orders : List Order) (stores : List Store)
    (dms : List DeliveryMan) (sd ed : Option Nat) :
    ((get_restaurant_stats orders stores sd ed).Pairwise fun a b =>
      b.total_revenue ≤ a.total_revenue)
    ∧ ((get_delivery_stats orders dms sd ed).Pairwise fun a b =>
      b.total_order_amount ≤ a.total_order_amount) := by
  constructor
  · have hs := pairwise_sortBy
      (fun a b : RestaurantRow => decide (b.total_revenue ≤ a.total_revenue))
      (fun a b => by
        rcases le_total b.total_revenue a.total_revenue with h | h <;>
          simp [h])
      (fun a b c h1 h2 => by
        simp only [decide_eq_true_eq] at h1 h2 ⊢
        exact le_trans h2 h1)
      ((((restaurantJoin orders stores sd ed).map
          fun p => (p.2.id, p.2.name)).dedup).map
        (restaurantGroupRow (restaurantJoin orders stores sd ed)))
    exact List.Pairwise.map roundRestaurantRow
      (fun a b h => round2_mono (of_decide_eq_true h)) hs
  · have hs := pairwise_sortBy
      (fun a b : DeliveryRow =>
        decide (b.total_order_amount ≤ a.total_order_amount))
      (fun a b => by
        rcases le_total b.total_order_amount a.total_order_amount with h | h <;>
          simp [h])
      (fun a b c h1 h2 => by
        simp only [decide_eq_true_eq] at h1 h2 ⊢
        exact le_trans h2 h1)
      ((((deliveryJoin orders dms sd ed).map
          fun p => (p.2.id, p.2.l_name)).dedup).map
        (deliveryGroupRow (deliveryJoin orders dms sd ed)))
    exact List.Pairwise.map roundDeliveryRow
      (fun a b h => round2_mono (of_decide_eq_true h)) hs

/-- C4 counterexample: with a delivered order whose monetary values are not
whole cents (order_amount 1.006, delivery_charge 0.003,
additional_charge 0), the overall result rounds the columns independently
(total_order_amount 1.01, total_delivery_charge 0.00,
total_restaurant_revenue 1.00), so the returned net-revenue column is off
by a full cent — far more than the claimed 1e-6 tolerance. -/
theorem revenue_identity_cex :
    ¬ ((get_final_stats
        [Order.mk 1 (1006/1000) (3/1000) 0 "delivered" 0 1 1] none none).Forall
      fun r => |r.total_restaurant_revenue
          - (r.total_order_amount - r.total_delivery_charge
            - r.total_additional_charge)| ≤ 1/1000000) := by
  have hev : get_final_stats
      [Order.mk 1 (1006/1000) (3/1000) 0 "delivered" 0 1 1] none none
      = [FinalRow.mk 1 (101/100) 1 0 0] := by
    simp only [get_final_stats, matchingOrders, dateFilter, finalAggRow,
      roundFinalRow, List.filter, List.map]
    norm_num [round2, round_eq]
  rw [hev]
  simp only [List.Forall]
  norm_num
  rw [abs_of_nonneg (by norm_num : (0:ℚ) ≤ 1/100)]
  norm_num

/-- C4 (amended): when all monetary fields of every order are whole-cent amounts
(integer multiples of 0.01) — as they are for money stored in cent
precision — the returned net-revenue column equals total_order_amount
minus the delivery fee minus total_additional_charge exactly (hence within
any tolerance, in particular 1e-6), for every row of the overall and
per-restaurant results.  Without that restriction the independently
rounded columns can differ by a full cent, see `revenue_identity_cex`. -/
theorem revenue_identity_cents (orders : List Order) (stores : List Store)
    (sd ed : Option Nat)
    (h : ∀ o ∈ orders, IsCentMul o.order_amount ∧ IsCentMul o.delivery_charge
        ∧ IsCentMul o.additional_charge) :
    ((get_final_stats orders sd ed).Forall fun r =>
      r.total_restaurant_revenue
        = r.total_order_amount - r.total_delivery_charge
          - r.total_additional_charge)
    ∧ ((get_restaurant_stats orders stores sd ed).Forall fun r =>
      r.total_revenue
        = r.total_order_amount - r.total_delivery_fee
          - r.total_additional_charge) := by
  have hmem : ∀ o ∈ matchingOrders orders sd ed, o ∈ orders := by
    intro o ho
    exact (List.mem_filter.mp ho).1
  constructor
  · rw [List.forall_iff_forall_mem]
    intro r hr
    simp only [get_final_stats, List.map, List.mem_singleton] at hr
    subst hr
    simp only [roundFinalRow, finalAggRow]
    have hA := centMul_sum (matchingOrders orders sd ed)
      (fun o => o.order_amount) (fun o ho => (h o (hmem o ho)).1)
    have hD := centMul_sum (matchingOrders orders sd ed)
      (fun o => o.delivery_charge) (fun o ho => (h o (hmem o ho)).2.1)
    have hC := centMul_sum (matchingOrders orders sd ed)
      (fun o => o.additional_charge) (fun o ho => (h o (hmem o ho)).2.2)
    rw [sum_map_sub3, round2_centMul ((hA.sub hD).sub hC), round2_centMul hA,
      round2_centMul hD, round2_centMul hC]
  · rw [List.forall_iff_forall_mem]
    intro r hr
    simp only [get_restaurant_stats] at hr
    obtain ⟨x, hx, rfl⟩ := List.mem_map.mp hr
    rw [restaurantQueryRows, mem_sortBy] at hx
    obtain ⟨k, -, rfl⟩ := List.mem_map.mp hx
    have hJ : ∀ p ∈ restaurantJoin orders stores sd ed, p.1 ∈ orders := by
      intro p hp
      obtain ⟨o, ho, hpo⟩ := List.mem_flatMap.mp hp
      obtain ⟨s, -, rfl⟩ := List.mem_map.mp hpo
      exact hmem o ho
    simp only [roundRestaurantRow, restaurantGroupRow]
    have hg : ∀ p ∈ (restaurantJoin orders stores sd ed).filter
        (fun p => p.2.id == k.1 && p.2.name == k.2), p.1 ∈ orders := by
      intro p hp
      exact hJ p (List.mem_filter.mp hp).1
    have hA := centMul_sum ((restaurantJoin orders stores sd ed).filter
        (fun p => p.2.id == k.1 && p.2.name == k.2))
      (fun p => p.1.order_amount) (fun p hp => (h p.1 (hg p hp)).1)
    have hD := centMul_sum ((restaurantJoin orders stores sd ed).filter
        (fun p => p.2.id == k.1 && p.2.name == k.2))
      (fun p => p.1.delivery_charge) (fun p hp => (h p.1 (hg p hp)).2.1)
    have hC := centMul_sum ((restaurantJoin orders stores sd ed).filter
        (fun p => p.2.id == k.1 && p.2.name == k.2))
      (fun p => p.1.additional_charge) (fun p hp => (h p.1 (hg p hp)).2.2)
    rw [sum_map_sub3, round2_centMul ((hA.sub hD).sub hC), round2_centMul hA,
      round2_centMul hD, round2_centMul hC]

/-- C4 witness: a concrete delivered order with cent amounts
(100.00, 10.00, 5.00) at one store; the rounded results satisfy the exact
net-revenue identity. -/
theorem revenue_identity_cents_witness :
    (∀ o ∈ [Order.mk 1 100 10 5 "delivered" 3 1 1],
      IsCentMul o.order_amount ∧ IsCentMul o.delivery_charge
        ∧ IsCentMul o.additional_charge)
    ∧ (((get_final_stats [Order.mk 1 100 10 5 "delivered" 3 1 1]
          none none).Forall fun r =>
        r.total_restaurant_revenue
          = r.total_order_amount - r.total_delivery_charge
            - r.total_additional_charge)
      ∧ ((get_restaurant_stats [Order.mk 1 100 10 5 "delivered" 3 1 1]
          [Store.mk 1 "Cafe X"] none none).Forall fun r =>
        r.total_revenue
          = r.total_order_amount - r.total_delivery_fee
            - r.total_additional_charge)) := by
  have hh : ∀ o ∈ [Order.mk 1 100 10 5 "delivered" 3 1 1],
      IsCentMul o.order_amount ∧ IsCentMul o.delivery_charge
        ∧ IsCentMul o.additional_charge := by
    intro o ho
    rw [List.mem_singleton] at ho
    subst ho
    exact ⟨⟨10000, by norm_num⟩, ⟨1000, by norm_num⟩, ⟨500, by norm_num⟩⟩
  exact ⟨hh, revenue_identity_cents
    [Order.mk 1 100 10 5 "delivered" 3 1 1] [Store.mk 1 "Cafe X"]
    none none hh⟩

/-- C7: the claim says the connection is released on every exit path, but the
source has no try/finally — when `pd.read_sql` raises, `conn.close()` is
never reached and the connection leaks; it is closed only on the
successful path. -/
theorem connection_leaks_when_query_raises :
    (restaurantStatsResource (.error "OperationalError")).2 = false
    ∧ (deliveryStatsResource (.error "OperationalError")).2 = false
    ∧ (∀ df, (restaurantStatsResource (.ok df)).2 = true)
    ∧ (∀ df, (deliveryStatsResource (.ok df)).2 = true) :=
  ⟨rfl, rfl, fun _ => rfl, fun _ => rfl⟩

/-- C8: the export encoder produces a workbook with a single sheet whose
header row is the column names in the order given and with exactly one
data row per result row, and decoding that workbook yields back exactly
the original column names, row count and cell values. -/
theorem export_round_trip (df : DataFrame) :
    (export_to_excel df).sheets
        = [{ header := df.columns, data := df.rows }]
    ∧ ((export_to_excel df).sheets.map fun s => s.data.length)
        = [df.rows.length]
    ∧ readWorkbook (export_to_excel df) = some df :=
  ⟨rfl, rfl, rfl⟩

/-- C9 counterexample: for the Today selection (start date chosen,
`end_date = None`), the downloaded file name interpolates the literal
string `None` into the end-date slot, so it does not follow the claimed
pattern with the selected range boundaries — no end boundary was selected
at all. -/
theorem filename_pattern_cex :
    ¬ specFileNamePattern "overall_stats" "2026-10-12" none
      (exportFileName "overall_stats" "2026-10-12" none) := by
  rintro ⟨e, he, -⟩
  exact Option.noConfusion he

/-- C9 (amended): when the selection carries an end date, the downloaded
file name is `<report-name>_<start-date>_to_<end-date>.xlsx` with the
selected boundaries; when no end date is selected (the Today
shortcut), the end-date slot holds the literal `None`; in both cases the
MIME type is that of the open spreadsheet standard. -/
theorem filename_pattern_amended :
    (∀ report start e : String, exportFileName report start (some e)
      = report ++ "_" ++ start ++ "_to_" ++ e ++ ".xlsx")
    ∧ (∀ report start : String, exportFileName report start none
      = report ++ "_" ++ start ++ "_to_" ++ "None" ++ ".xlsx")
    ∧ exportMime
      = "application/vnd.openxmlformats-officedocument.spreadsheetml.sheet" :=
  ⟨fun _ _ _ => rfl, fun _ _ => rfl, rfl⟩
